import Mathlib

/-!
Verification development for `lib/cros_build_lib.py` (Python 2 build-script
helpers): a subprocess runner (`RunCommand`), an ANSI color wrapper
(`Color`), leveled logging (`Die` / `Warning` / `Info`) and two path
helpers (`FindRepoDir`, `ReinterpretPathForChroot`).

The embedding is shallow and executable.  Paths are modelled as strings
(`List Char` underneath, matching Python 2 byte strings on ASCII data);
the relevant `posixpath` library functions (`join`, `dirname`, `normpath`,
`abspath`) and `str.replace` are reimplemented faithfully from their
CPython sources.  The filesystem is a list of existing directories given
by their normalized absolute names, with no symlinks, and `os.path.isdir`
resolves its argument against the current working directory exactly as
the OS would on such a tree.  The subprocess boundary is an oracle
function from the spawn call to the child's behaviour.
-/

deriving instance DecidableEq for Except

namespace CrosBuildLib

/-! ### posixpath primitives on `List Char` -/

/-- Does the list contain a `'/'`?  (Helper for `posixpath.dirname`.) -/
def hasSlash : List Char → Bool
  | [] => false
  | c :: rest => c = '/' || hasSlash rest

/-- `p[:i]` where `i = p.rfind('/') + 1`: the longest prefix of `p` ending
in its last slash, or `[]` when `p` has no slash.  (From
`posixpath.dirname`.) -/
def takeUptoLastSlash : List Char → List Char
  | [] => []
  | c :: rest =>
    if hasSlash rest then c :: takeUptoLastSlash rest
    else if c = '/' then ['/'] else []

/-- Python `str.rstrip('/')`: drop trailing slashes. -/
def rstripSlash : List Char → List Char
  | [] => []
  | c :: rest =>
    let r := rstripSlash rest
    if r = [] ∧ c = '/' then [] else c :: r

/-- `posixpath.dirname`:
`i = p.rfind('/') + 1; head = p[:i];`
`if head and head != '/'*len(head): head = head.rstrip('/'); return head`. -/
def dirnameL (p : List Char) : List Char :=
  let head := takeUptoLastSlash p
  if head ≠ [] ∧ head.any (fun c => c ≠ '/') then rstripSlash head else head

/-- `posixpath.join(a, b)` for two arguments:
if `b` starts with `'/'` return `b`; else append, inserting `'/'` unless
`a` is empty or already ends in `'/'`. -/
def joinL (a b : List Char) : List Char :=
  if b.head? = some '/' then b
  else if a = [] ∨ a.getLast? = some '/' then a ++ b
  else a ++ '/' :: b

/-- Python `p.split('/')` (keeps empty components). -/
def splitOnSlashAux (cur : List Char) : List Char → List (List Char)
  | [] => [cur.reverse]
  | c :: rest =>
    if c = '/' then cur.reverse :: splitOnSlashAux [] rest
    else splitOnSlashAux (c :: cur) rest

/-- Python `p.split('/')`. -/
def splitOnSlash (l : List Char) : List (List Char) := splitOnSlashAux [] l

/-- The component loop of `posixpath.normpath`: drop `''` and `'.'`
components, resolve `'..'` against the accumulator (kept reversed),
keeping leading `'..'`s on relative paths and dropping them at the root
of absolute ones. -/
def normLoop (abs : Bool) : List (List Char) → List (List Char) → List (List Char)
  | [], acc => acc.reverse
  | comp :: rest, acc =>
    if comp = [] ∨ comp = ['.'] then normLoop abs rest acc
    else if comp ≠ ['.', '.'] ∨ (¬ abs ∧ acc = []) ∨ acc.head? = some ['.', '.'] then
      normLoop abs rest (comp :: acc)
    else
      match acc with
      | [] => normLoop abs rest []
      | _ :: acc2 => normLoop abs rest acc2

/-- `posixpath.normpath`: empty maps to `'.'`; one leading slash is kept,
exactly two leading slashes are kept as two (POSIX), three or more
collapse to one; components are normalized by `normLoop`. -/
def normpathL (p : List Char) : List Char :=
  if p = [] then ['.']
  else
    let slashes : Nat :=
      if p.head? = some '/' then
        if p.take 3 = ['/', '/', '/'] then 1
        else if p.take 2 = ['/', '/'] then 2
        else 1
      else 0
    let comps := normLoop (slashes > 0) (splitOnSlash p) []
    let joined := List.intercalate ['/'] comps
    let out := List.replicate slashes '/' ++ joined
    if out = [] then ['.'] else out

/-- Python 2 `str.replace(old, '')` for nonempty `old`: scan left to
right, deleting non-overlapping occurrences of `old`.  Structural fuel
(`n`) is consumed one unit per examined position; `n = l.length`
suffices because every step consumes at least one character. -/
def stripAllFuel (pat : List Char) : Nat → List Char → List Char
  | 0, l => l
  | _ + 1, [] => []
  | n + 1, c :: rest =>
    if pat ≠ [] ∧ pat.isPrefixOf (c :: rest) then
      stripAllFuel pat n ((c :: rest).drop pat.length)
    else c :: stripAllFuel pat n rest

/-- Python 2 `s.replace(old, '')` on character lists (nonempty `old`). -/
def stripAll (pat l : List Char) : List Char := stripAllFuel pat l.length l

/-! ### posixpath primitives as `String` functions -/

/-- `posixpath.dirname` on strings. -/
def posixDirname (p : String) : String := ⟨dirnameL p.data⟩

/-- `posixpath.join` on strings (two arguments). -/
def posixJoin (a b : String) : String := ⟨joinL a.data b.data⟩

/-- `posixpath.normpath` on strings. -/
def posixNormpath (p : String) : String := ⟨normpathL p.data⟩

/-- `posixpath.abspath` relative to an explicit working directory:
`if not isabs(path): path = join(getcwd(), path); return normpath(path)`. -/
def posixAbspath (cwd p : String) : String :=
  posixNormpath (if p.data.head? = some '/' then p else posixJoin cwd p)

/-- Python `s.replace(old, '')`: with an empty pattern CPython returns the
string unchanged (when the replacement is also empty); otherwise delete
every non-overlapping occurrence of `old`, left to right. -/
def pyReplaceDel (s old : String) : String :=
  if old = "" then s else ⟨stripAll old.data s.data⟩

/-- Python slice `s[n:]` on byte strings (ASCII model). -/
def pySliceFrom (s : String) (n : Nat) : String := ⟨s.data.drop n⟩

/-! ### Process environment and filesystem model -/

/-- The observable process-start environment: whether each standard
stream is attached to an interactive terminal.  The source computes
`_STDOUT_IS_TTY = hasattr(sys.stdout, 'isatty') and sys.stdout.isatty()`
once at import time. -/
structure ProcEnv where
  stdoutIsTTY : Bool
  stderrIsTTY : Bool
deriving DecidableEq

/-- `_STDOUT_IS_TTY` from line 12 of the source: the tty flag of the
standard *output* stream, sampled once at process start. -/
def STDOUT_IS_TTY (e : ProcEnv) : Bool := e.stdoutIsTTY

/-- A filesystem is the list of existing directories, each given by its
normalized absolute path.  No symlinks are modelled. -/
def Fs : Type := List String

/-- `os.path.isdir(p)` on the model filesystem: resolve `p` against the
working directory (exactly `posixpath.abspath`) and look it up. -/
def isdir (fs : Fs) (cwd p : String) : Bool :=
  List.contains fs (posixAbspath cwd p)

/-! ### `Color` -/

/-- `class Color(object)`: conditionally wraps text in ANSI color escape
sequences; holds the single boolean `_enabled` fixed at construction. -/
structure Color where
  _enabled : Bool
deriving DecidableEq

/-- `Color.BLACK, ..., WHITE = range(8)`. -/
def Color.BLACK : Int := 0

/-- `RED = 1`. -/
def Color.RED : Int := 1

/-- `GREEN = 2`. -/
def Color.GREEN : Int := 2

/-- `YELLOW = 3`. -/
def Color.YELLOW : Int := 3

/-- `BLUE = 4`. -/
def Color.BLUE : Int := 4

/-- `MAGENTA = 5`. -/
def Color.MAGENTA : Int := 5

/-- `CYAN = 6`. -/
def Color.CYAN : Int := 6

/-- `WHITE = 7`. -/
def Color.WHITE : Int := 7

/-- `BOLD = -1`. -/
def Color.BOLD : Int := -1

/-- `COLOR_START = '\033[1;%dm'` instantiated at `n`. -/
def Color.COLOR_START (n : Int) : String := "\x1b[1;" ++ toString n ++ "m"

/-- `BOLD_START = '\033[1m'`. -/
def Color.BOLD_START : String := "\x1b[1m"

/-- `RESET = '\033[0m'`. -/
def Color.RESET : String := "\x1b[0m"

set_option linter.dupNamespace false in
/-- `Color.Color(self, color, text)`: if `self._enabled` is false return
`text` unchanged; otherwise pick the bold start for `BOLD` and
`COLOR_START % (color + 30)` for any other integer, and wrap.  (The
Python method is named like its class.) -/
def Color.Color (self : Color) (color : Int) (text : String) : String :=
  if ¬ self._enabled then text
  else
    let start := if color = Color.BOLD then Color.BOLD_START
                 else Color.COLOR_START (color + 30)
    start ++ text ++ Color.RESET

/-! ### Logging (`Die` / `Warning` / `Info`)

Each function builds one line and writes it via
`print >> sys.stderr, ...` (which appends a newline); the text recorded
here is the argument handed to `print`.  `Die` additionally calls
`sys.exit(1)`. -/

/-- The stream a log line is written to. -/
inductive StdStream
  | stdout
  | stderr
deriving DecidableEq

/-- One emitted log line: the destination stream and the string handed
to `print` (which appends a trailing newline on the wire). -/
structure LogLine where
  stream : StdStream
  text : String
deriving DecidableEq

/-- `Warning(message)`: yellow `'\nWARNING: ' + message` on `sys.stderr`,
colored by `Color(_STDOUT_IS_TTY)`. -/
def Warning (e : ProcEnv) (message : String) : LogLine :=
  ⟨.stderr, (Color.mk (STDOUT_IS_TTY e)).Color Color.YELLOW ("\nWARNING: " ++ message)⟩

/-- `Info(message)`: blue `'\nINFO: ' + message` on `sys.stderr`. -/
def Info (e : ProcEnv) (message : String) : LogLine :=
  ⟨.stderr, (Color.mk (STDOUT_IS_TTY e)).Color Color.BLUE ("\nINFO: " ++ message)⟩

/-- `Die(message)`: red `'\nERROR: ' + message` on `sys.stderr`, then
`sys.exit(1)`; the second component is the process exit status. -/
def Die (e : ProcEnv) (message : String) : LogLine × Nat :=
  (⟨.stderr, (Color.mk (STDOUT_IS_TTY e)).Color Color.RED ("\nERROR: " ++ message)⟩, 1)

/-! ### `FindRepoDir`

The source loop
```
while path != '/':
  repo_dir = os.path.join(path, '.repo')
  if os.path.isdir(repo_dir):
    return repo_dir
  path = os.path.dirname(path)
return None
```
is not total in Python (e.g. `os.path.dirname('') == ''`), so it is
embedded with explicit fuel: `none` means the fuel ran out before the
loop finished, `some none` is Python's `return None`, and
`some (some r)` is `return repo_dir`. -/

/-- One fueled run of the `FindRepoDir` loop body. -/
def findRepoLoop (fs : Fs) (cwd : String) : Nat → String → Option (Option String)
  | 0, _ => none
  | fuel + 1, path =>
    if path = "/" then some none
    else
      let repo_dir := posixJoin path ".repo"
      if isdir fs cwd repo_dir then some (some repo_dir)
      else findRepoLoop fs cwd fuel (posixDirname path)

/-- `FindRepoDir(path=None)`: defaulting `path` to the current working
directory, run the ancestor-walk loop with the given fuel. -/
def FindRepoDir (fs : Fs) (cwd : String) (path : Option String) (fuel : Nat) :
    Option (Option String) :=
  findRepoLoop fs cwd fuel (path.getD cwd)

/-! ### `ReinterpretPathForChroot` -/

/-- The ways `ReinterpretPathForChroot` can raise. -/
inductive ReErr
  /-- `os.path.join(None, '..')` raises `TypeError` when `FindRepoDir`
  returned `None`. -/
  | typeErrorNoneJoin
  /-- The designated
  `Exception('Error: path is outside your src tree, cannot reinterpret.')`. -/
  | outsideSrcTree
deriving DecidableEq

/-- `ReinterpretPathForChroot(path)`:
```
root_path = os.path.join(FindRepoDir(path), '..')
path_abs_path = os.path.abspath(path)
root_abs_path = os.path.abspath(root_path)
relative_path = path_abs_path.replace(root_abs_path, '')[1:]
if relative_path == path_abs_path: raise Exception(...)
new_path = os.path.join('/home', os.getenv('USER'), 'trunk', relative_path)
return new_path
```
The outer `Option` is fuel exhaustion of the inner `FindRepoDir` walk. -/
def ReinterpretPathForChroot (fs : Fs) (cwd user : String) (fuel : Nat)
    (path : String) : Option (Except ReErr String) :=
  match FindRepoDir fs cwd (some path) fuel with
  | none => none
  | some none => some (.error .typeErrorNoneJoin)
  | some (some repoDir) =>
    let root_path := posixJoin repoDir ".."
    let path_abs_path := posixAbspath cwd path
    let root_abs_path := posixAbspath cwd root_path
    let relative_path := pySliceFrom (pyReplaceDel path_abs_path root_abs_path) 1
    some (if relative_path = path_abs_path then .error .outsideSrcTree
          else .ok (posixJoin (posixJoin (posixJoin "/home" user) "trunk") relative_path))

/-! ### `RunCommand`

The subprocess boundary is an oracle from the spawn call (final argv,
working directory, which streams are piped, the stdin payload) to the
child's behaviour: either `Popen`/`communicate` raises, or the child
runs producing stdout text, stderr text and a return code.  The
embedding records the value returned or the exception propagated, the
`Info`/`Warning` messages emitted, and the spawn call actually made. -/

/-- `cmd` as accepted by the source: a string or an argv list.  The
docstring promises a string is `split()`, but the code passes it through
unchanged. -/
inductive CmdArg
  | str (s : String)
  | list (l : List String)
deriving DecidableEq

/-- What reaches `subprocess.Popen` / `communicate`. -/
structure SpawnCall where
  cmd : CmdArg
  cwd : Option String
  stdinPiped : Bool
  stdoutPiped : Bool
  stderrPiped : Bool
  input : Option String
deriving DecidableEq

/-- The child-side outcome of one spawn call. -/
inductive SpawnBehavior
  /-- The child ran to completion with this stdout text, stderr text and
  return code (texts are observable only on piped streams). -/
  | ok (stdout stderr : String) (returncode : Int)
  /-- `Popen` or `communicate` raised an exception with this message. -/
  | exn (msg : String)
deriving DecidableEq

/-- A Python value `RunCommand` can return: `None`, a string, or an
integer return code. -/
inductive PyVal
  | none
  | str (s : String)
  | int (n : Int)
deriving DecidableEq

/-- The observable outcome of one `RunCommand` call. -/
structure RunOutcome where
  /-- the returned value, or the message of the propagated exception -/
  result : Except String PyVal
  /-- arguments of `Info` calls made, in order -/
  infos : List String
  /-- arguments of `Warning` calls made, in order -/
  warnings : List String
  /-- the spawn call handed to `Popen`, if one was made -/
  spawned : Option SpawnCall

/-- Python truthiness of the optional `input`: `if input:` pipes stdin
only for a non-`None`, nonempty string. -/
def truthyOpt : Option String → Bool
  | Option.none => false
  | some s => s ≠ ""

/-- Python `a or b` on an optional string against a string default:
`None` and `''` are falsy. -/
def pyOr (a : Option String) (b : String) : String :=
  match a with
  | some s => if s = "" then b else s
  | Option.none => b

/-- Python `repr` of a simple string (no escaping needed on the inputs
used here). -/
def reprStr (s : String) : String := "'" ++ s ++ "'"

/-- Python `'%r' % cmd` for the two shapes of `cmd`. -/
def reprCmd : CmdArg → String
  | .str s => reprStr s
  | .list l => "[" ++ String.intercalate ", " (l.map reprStr) ++ "]"

/-- Python `'%s' % cwd` where `cwd` may be `None`. -/
def showCwd : Option String → String
  | Option.none => "None"
  | some s => s

/-- `GetCallerName()` walks the interpreter stack to the outermost frame;
that introspection is not expressible in a pure embedding, so the name is
supplied by the context as a parameter. -/
def GetCallerName (caller : String) : String := caller

/-- `RunCommand(cmd, print_cmd, error_ok, error_message, exit_code,
redirect_stdout, redirect_stderr, cwd, input, enter_chroot)`, translated
line by line:
- pipes are selected from the redirect flags and `if input:`;
- `enter_chroot` prepends `['./enter_chroot.sh', '--']`, which on a
  string `cmd` is Python `list + str` and raises `TypeError` before the
  `try` block (hence uncaught, nothing spawned);
- the `Info` line is printed when `print_cmd`;
- `proc.communicate(input)` yields `(None, None)` on unpiped streams, so
  `output` is rebound from its initial `''` to `None` when stdout is not
  redirected;
- `if exit_code: return proc.returncode` precedes the failure check;
- the failure `raise` fires only when `not error_ok and proc.returncode`,
  so it is always re-raised by the `except` handler;
- only an exception from `Popen`/`communicate` can reach the handler
  with `error_ok` set, emitting a `Warning` and returning `output`,
  still `''` there. -/
def RunCommand (spawn : SpawnCall → SpawnBehavior) (caller : String)
    (cmd : CmdArg) (print_cmd error_ok : Bool) (error_message : Option String)
    (exit_code redirect_stdout redirect_stderr : Bool)
    (cwd input : Option String) (enter_chroot : Bool) : RunOutcome :=
  let stdoutPiped := redirect_stdout
  let stderrPiped := redirect_stderr
  let stdinPiped := truthyOpt input
  match (if enter_chroot then
           match cmd with
           | .list l => some (CmdArg.list (["./enter_chroot.sh", "--"] ++ l))
           | .str _ => Option.none
         else some cmd) with
  | Option.none =>
    ⟨.error "TypeError: can only concatenate list (not str) to list", [], [], Option.none⟩
  | some cmd =>
    let infos := if print_cmd then
        ["PROGRAM(" ++ GetCallerName caller ++ ") -> RunCommand: " ++ reprCmd cmd
          ++ " in dir " ++ showCwd cwd]
      else []
    let call : SpawnCall := ⟨cmd, cwd, stdinPiped, stdoutPiped, stderrPiped, input⟩
    match spawn call with
    | .exn msg =>
      if error_ok then ⟨.ok (.str ""), infos, [msg], some call⟩
      else ⟨.error msg, infos, [], some call⟩
    | .ok out err rc =>
      let output : Option String := if stdoutPiped then some out else Option.none
      let error : Option String := if stderrPiped then some err else Option.none
      if exit_code then ⟨.ok (.int rc), infos, [], some call⟩
      else if error_ok = false ∧ rc ≠ 0 then
        ⟨.error ("Command \"" ++ reprCmd cmd ++ "\" failed.\n"
                  ++ pyOr error_message (pyOr error (pyOr output ""))),
          infos, [], some call⟩
      else
        ⟨.ok (match output with | some s => .str s | Option.none => .none),
          infos, [], some call⟩

/-! ### Spec-side description of the `FindRepoDir` walk

`dirChain` lists the paths the loop visits, nearest first, stopping
before `'/'`; `findRepoSpec` picks the first visited path whose `.repo`
join is a directory.  This is the "nearest ancestor wins" reading of the
walk, used to characterize the loop. -/

/-- The paths visited by the `FindRepoDir` loop, nearest first; the loop
guard excludes `'/'` itself. -/
def dirChain : Nat → String → List String
  | 0, _ => []
  | fuel + 1, p => if p = "/" then [] else p :: dirChain fuel (posixDirname p)

/-- The marker probe at one visited path: the joined `.repo` path when
it is a directory. -/
def markerOf (fs : Fs) (cwd a : String) : Option String :=
  if isdir fs cwd (posixJoin a ".repo") then some (posixJoin a ".repo") else none

/-- First marker hit along the visited chain (none if no visited path,
`'/'` excluded, carries the marker). -/
def findRepoSpec (fs : Fs) (cwd : String) (fuel : Nat) (p : String) : Option String :=
  (dirChain fuel p).findSome? (markerOf fs cwd)

/-- Absolute with a single leading slash: the shape on which the
`dirname` walk strictly descends. -/
def StrictAbs (l : List Char) : Prop :=
  l.head? = some '/' ∧ l.tail.head? ≠ some '/'

instance (l : List Char) : Decidable (StrictAbs l) := by
  unfold StrictAbs; infer_instance

/-! ### Helper lemmas -/

theorem stripAllFuel_length (pat : List Char) :
    ∀ (n : Nat) (l : List Char), (stripAllFuel pat n l).length ≤ l.length := by
  intro n
  induction n with
  | zero => intro l; simp [stripAllFuel]
  | succ n ih =>
    intro l
    match l with
    | [] => simp [stripAllFuel]
    | c :: rest =>
      simp only [stripAllFuel]
      split
      · calc (stripAllFuel pat n ((c :: rest).drop pat.length)).length
            ≤ ((c :: rest).drop pat.length).length := ih _
          _ ≤ (c :: rest).length := by simp
      · simpa using ih rest

theorem ite_nil_dot (out : List Char) : (if out = [] then ['.'] else out) ≠ [] := by
  split
  next => simp
  next h => exact h

theorem normpathL_ne_nil (p : List Char) : normpathL p ≠ [] := by
  unfold normpathL
  split
  · simp
  · exact ite_nil_dot _

theorem posixNormpath_ne_empty (p : String) : posixNormpath p ≠ "" := by
  intro h
  exact normpathL_ne_nil p.data (congrArg String.data h)

theorem posixAbspath_ne_empty (cwd p : String) : posixAbspath cwd p ≠ "" :=
  posixNormpath_ne_empty _

/-- `path_abs_path.replace(root_abs_path, '')[1:]` is strictly shorter
than `path_abs_path` whenever both strings are nonempty, so it can never
equal it: the guard before the designated raise is dead. -/
theorem relative_ne_abs (pa ra : String) (hpa : pa ≠ "") (hra : ra ≠ "") :
    pySliceFrom (pyReplaceDel pa ra) 1 ≠ pa := by
  intro h
  have hpaD : pa.data ≠ [] := by
    intro hD
    exact hpa (String.ext hD)
  have hd : (pySliceFrom (pyReplaceDel pa ra) 1).data = pa.data := congrArg String.data h
  rw [pyReplaceDel, if_neg hra] at hd
  dsimp only [pySliceFrom] at hd
  have hlen := congrArg List.length hd
  rw [List.length_drop] at hlen
  have h1 : (stripAll ra.data pa.data).length ≤ pa.data.length := by
    unfold stripAll
    exact stripAllFuel_length _ _ _
  have h2 : 1 ≤ pa.data.length := by
    cases hcase : pa.data with
    | nil => exact absurd hcase hpaD
    | cons c t => simp [hcase]
  omega

/-! ### Claim C1 -/

/-- A small tree whose `'/a'` level carries the marker. -/
def fsC1 : Fs := ["/", "/a", "/a/.repo", "/a/b"]

/-- C1, counterexample: starting from `/a/b` in a tree whose nearest
marker-bearing ancestor is `/a`, `FindRepoDir` returns the marker
directory path `/a/.repo` itself, not the ancestor `/a` the claim
says it returns. -/
theorem c1_counterexample :
    FindRepoDir fsC1 "/" (some "/a/b") 10 = some (some "/a/.repo") ∧
    (some (some "/a/.repo") : Option (Option String)) ≠ some (some "/a") := by
  constructor
  · decide
  · decide

/-- C1 (amended): whenever the walk finishes within its fuel, the result
is the first hit of the marker probe along the visited chain, nearest
first and with `'/'` itself excluded from the walk — i.e. `None` when no
visited ancestor carries `.repo`, and otherwise `join(a, '.repo')` for
the closest marker-bearing ancestor-or-self `a` (the marker directory
path, not the ancestor itself). -/
theorem c1_nearest_marker (fs : Fs) (cwd : String) (fuel : Nat) (p : String)
    (res : Option String) (h : findRepoLoop fs cwd fuel p = some res) :
    res = findRepoSpec fs cwd fuel p := by
  induction fuel generalizing p with
  | zero => exact absurd h (by simp [findRepoLoop])
  | succ n ih =>
    rw [findRepoLoop] at h
    rw [findRepoSpec, dirChain]
    by_cases hroot : p = "/"
    · rw [if_pos hroot] at h ⊢
      simp at h
      simp [← h]
    · rw [if_neg hroot] at h ⊢
      by_cases hdir : isdir fs cwd (posixJoin p ".repo")
      · rw [if_pos hdir] at h
        simp at h
        simp [List.findSome?_cons, markerOf, hdir, ← h]
      · rw [if_neg hdir] at h
        have := ih _ h
        simp [List.findSome?_cons, markerOf, hdir, this, findRepoSpec]

/-- A second tree, with markers at two levels to exercise that the
closest one wins. -/
def fsC1w : Fs := ["/", "/x", "/x/.repo", "/x/y", "/x/y/.repo", "/x/y/z"]

/-- Witness for `c1_nearest_marker`: from `/x/y/z`, with markers at both
`/x` and `/x/y`, the loop finishes and returns the closest marker path
`/x/y/.repo`, agreeing with the chain description. -/
theorem c1_nearest_marker_witness :
    findRepoLoop fsC1w "/" 10 "/x/y/z" = some (some "/x/y/.repo") ∧
    (some "/x/y/.repo" : Option String) = findRepoSpec fsC1w "/" 10 "/x/y/z" :=
  ⟨by decide, c1_nearest_marker fsC1w "/" 10 "/x/y/z" (some "/x/y/.repo") (by decide)⟩

/-! ### Claim C2 -/

/-- A tree with no marker anywhere, and a path outside any src tree. -/
def fsC2 : Fs := ["/", "/outside"]

/-- Marker-bearing tree used to witness the general part of the C2
theorem on an input that reaches the prefix-strip code. -/
def fsC2w : Fs := ["/", "/s", "/s/.repo", "/s/d"]

/-- C2: the claim says `ReinterpretPathForChroot` raises its designated
error exactly when the path does not lie under the detected source root
(prefix strip a no-op).  In the code the slice `[1:]` is applied
*before* the no-op comparison, so `relative_path` is always strictly
shorter than `path_abs_path` and the designated raise is dead code: no
input at all produces `outsideSrcTree`.  A path outside every
marker-bearing tree instead fails earlier, with the `TypeError` from
`os.path.join(None, '..')`. -/
theorem c2_outside_check_dead :
    ReinterpretPathForChroot fsC2 "/" "u" 10 "/outside" =
      some (.error .typeErrorNoneJoin) ∧
    ∀ (fs : Fs) (cwd user : String) (fuel : Nat) (path : String)
      (res : Except ReErr String),
      ReinterpretPathForChroot fs cwd user fuel path = some res →
      res ≠ .error .outsideSrcTree := by
  constructor
  · decide
  · intro fs cwd user fuel path res h
    unfold ReinterpretPathForChroot at h
    cases hfd : FindRepoDir fs cwd (some path) fuel with
    | none => rw [hfd] at h; exact absurd h (by simp)
    | some o =>
      cases o with
      | none =>
        rw [hfd] at h
        simp at h
        simp [← h]
      | some repoDir =>
        rw [hfd] at h
        dsimp only at h
        rw [if_neg (relative_ne_abs _ _ (posixAbspath_ne_empty _ _)
              (posixAbspath_ne_empty _ _))] at h
        simp at h
        simp [← h]

/-- Witness for `c2_outside_check_dead`: a run that reaches the
prefix-strip code and returns normally, hence is not the designated
error. -/
theorem c2_outside_check_dead_witness :
    ReinterpretPathForChroot fsC2w "/" "u" 10 "/s/d" =
      some (.ok "/home/u/trunk/d") ∧
    (Except.ok "/home/u/trunk/d" : Except ReErr String) ≠ .error .outsideSrcTree :=
  ⟨by decide,
    c2_outside_check_dead.2 fsC2w "/" "u" 10 "/s/d" (.ok "/home/u/trunk/d") (by decide)⟩

/-! ### Claim C10 -/

/-- C10: when `FindRepoDir` returns `None`, `ReinterpretPathForChroot`
fails while computing `os.path.join(None, '..')` — the `TypeError`, not
the designated 'outside your src tree' error — so the designated error
path presupposes a found marker. -/
theorem c10_none_join_failure (fs : Fs) (cwd user : String) (fuel : Nat)
    (path : String) (h : FindRepoDir fs cwd (some path) fuel = some none) :
    ReinterpretPathForChroot fs cwd user fuel path =
      some (.error .typeErrorNoneJoin) ∧
    ReinterpretPathForChroot fs cwd user fuel path ≠
      some (.error .outsideSrcTree) := by
  unfold ReinterpretPathForChroot
  rw [h]
  exact ⟨rfl, by simp⟩

/-! ### Descent lemmas for `posixpath.dirname`, towards claim C9 -/

/-- Last character of a list. -/
def lastCh : List Char → Option Char
  | [] => none
  | [c] => some c
  | _ :: d :: t => lastCh (d :: t)

theorem hasSlash_of_lastCh : ∀ l : List Char, lastCh l = some '/' → hasSlash l = true := by
  intro l
  induction l with
  | nil => intro h; simp [lastCh] at h
  | cons c rest ih =>
    intro h
    cases rest with
    | nil =>
      simp [lastCh] at h
      simp [hasSlash, h]
    | cons d t =>
      have h2 : lastCh (d :: t) = some '/' := h
      have hstep : hasSlash (c :: d :: t) = (decide (c = '/') || hasSlash (d :: t)) := rfl
      rw [hstep, ih h2, Bool.or_true]

theorem tuls_le : ∀ l : List Char, (takeUptoLastSlash l).length ≤ l.length := by
  intro l
  induction l with
  | nil => simp [takeUptoLastSlash]
  | cons c rest ih =>
    simp only [takeUptoLastSlash]
    split
    · simpa using ih
    · split <;> simp

theorem tuls_eq_self : ∀ l : List Char, lastCh l = some '/' → takeUptoLastSlash l = l := by
  intro l
  induction l with
  | nil => intro h; simp [lastCh] at h
  | cons c rest ih =>
    intro h
    cases rest with
    | nil =>
      simp [lastCh] at h
      simp [takeUptoLastSlash, hasSlash, h]
    | cons d t =>
      have h2 : lastCh (d :: t) = some '/' := h
      have hs : hasSlash (d :: t) = true := hasSlash_of_lastCh _ h2
      have hstep : takeUptoLastSlash (c :: d :: t) =
          (if hasSlash (d :: t) then c :: takeUptoLastSlash (d :: t)
           else if c = '/' then ['/'] else []) := rfl
      rw [hstep, if_pos hs, ih h2]

theorem tuls_lt : ∀ l : List Char, l ≠ [] → lastCh l ≠ some '/' →
    (takeUptoLastSlash l).length < l.length := by
  intro l
  induction l with
  | nil => intro h _; exact absurd rfl h
  | cons c rest ih =>
    intro _ hlast
    cases rest with
    | nil =>
      have hc : c ≠ '/' := by
        intro hcc
        exact hlast (by simp [lastCh, hcc])
      simp [takeUptoLastSlash, hasSlash, hc]
    | cons d t =>
      have hlast2 : lastCh (d :: t) ≠ some '/' := hlast
      have hstep : takeUptoLastSlash (c :: d :: t) =
          (if hasSlash (d :: t) then c :: takeUptoLastSlash (d :: t)
           else if c = '/' then ['/'] else []) := rfl
      rw [hstep]
      by_cases hs : hasSlash (d :: t) = true
      · rw [if_pos hs]
        have := ih (by simp) hlast2
        simp only [List.length_cons] at this ⊢
        omega
      · rw [if_neg hs]
        split <;> simp only [List.length_cons, List.length_nil, List.length_singleton] <;> omega

theorem rstrip_le : ∀ l : List Char, (rstripSlash l).length ≤ l.length := by
  intro l
  induction l with
  | nil => simp [rstripSlash]
  | cons c rest ih =>
    simp only [rstripSlash]
    split
    · simp
    · simpa using ih

theorem rstrip_lt : ∀ l : List Char, l ≠ [] → lastCh l = some '/' →
    (rstripSlash l).length < l.length := by
  intro l
  induction l with
  | nil => intro h _; exact absurd rfl h
  | cons c rest ih =>
    intro _ hlast
    cases rest with
    | nil =>
      have hc : c = '/' := by simpa [lastCh] using hlast
      simp [rstripSlash, hc]
    | cons d t =>
      have h2 : lastCh (d :: t) = some '/' := hlast
      have hlt := ih (by simp) h2
      have hstep : rstripSlash (c :: d :: t) =
          (if rstripSlash (d :: t) = [] ∧ c = '/' then []
           else c :: rstripSlash (d :: t)) := rfl
      rw [hstep]
      simp only [List.length_cons] at hlt
      split <;> simp only [List.length_cons, List.length_nil] <;> omega

theorem rstrip_cons (c : Char) (t : List Char) (hc : c ≠ '/') :
    rstripSlash (c :: t) = c :: rstripSlash t := by
  simp [rstripSlash, hc]

/-- The key descent fact: on a strictly absolute path other than `'/'`,
one `posixpath.dirname` step stays strictly absolute and strictly
shortens the string. -/
theorem dirnameL_descent (p : List Char) (habs : StrictAbs p) (hne : p ≠ ['/']) :
    StrictAbs (dirnameL p) ∧ (dirnameL p).length < p.length := by
  obtain ⟨h1, h2⟩ := habs
  cases p with
  | nil => simp at h1
  | cons a q =>
    simp at h1
    subst h1
    cases q with
    | nil => exact absurd rfl hne
    | cons c rest =>
      have hc : c ≠ '/' := by
        intro hcc
        apply h2
        simp [hcc]
      by_cases hs : hasSlash (c :: rest) = true
      · have hsr : hasSlash rest = true := by
          simp [hasSlash] at hs
          rcases hs with hs | hs
          · exact absurd hs hc
          · exact hs
        have hrestne : rest ≠ [] := by
          intro hr
          rw [hr] at hsr
          simp [hasSlash] at hsr
        have htu : takeUptoLastSlash ('/' :: c :: rest) =
            '/' :: c :: takeUptoLastSlash rest := by
          simp only [takeUptoLastSlash, hs, hsr, if_true]
        have hdir : dirnameL ('/' :: c :: rest) =
            '/' :: c :: rstripSlash (takeUptoLastSlash rest) := by
          unfold dirnameL
          rw [htu, if_pos ⟨by simp, by simp [hc]⟩]
          rw [show rstripSlash ('/' :: c :: takeUptoLastSlash rest) =
              (if rstripSlash (c :: takeUptoLastSlash rest) = [] ∧ '/' = '/' then []
               else '/' :: rstripSlash (c :: takeUptoLastSlash rest)) from rfl]
          rw [rstrip_cons c _ hc]
          simp
        rw [hdir]
        refine ⟨⟨by simp, by simp [hc]⟩, ?_⟩
        simp only [List.length_cons]
        have hstep : (rstripSlash (takeUptoLastSlash rest)).length < rest.length := by
          by_cases hlast : lastCh rest = some '/'
          · rw [tuls_eq_self rest hlast]
            exact rstrip_lt rest hrestne hlast
          · calc (rstripSlash (takeUptoLastSlash rest)).length
                ≤ (takeUptoLastSlash rest).length := rstrip_le _
              _ < rest.length := tuls_lt rest hrestne hlast
        omega
      · have htu : takeUptoLastSlash ('/' :: c :: rest) = ['/'] := by
          simp only [takeUptoLastSlash]
          rw [if_neg hs]
          simp
        have hdir : dirnameL ('/' :: c :: rest) = ['/'] := by
          unfold dirnameL
          rw [htu]
          simp
        rw [hdir]
        refine ⟨⟨by simp, by simp⟩, ?_⟩
        simp

/-- `FindRepoDir` with `path = ''` (Python's `os.path.dirname` fixpoint)
never finishes: the loop guard compares against `'/'` only. -/
theorem findRepoLoop_empty_stuck (fuel : Nat) :
    findRepoLoop ["/"] "/" fuel "" = none := by
  induction fuel with
  | zero => rfl
  | succ n ih =>
    simp only [findRepoLoop]
    rw [if_neg (by decide), if_neg (by decide)]
    rw [show posixDirname "" = "" from by decide]
    exact ih

/-- A relative path with no marker ancestor walks down to `''` and then
loops forever. -/
theorem findRepoLoop_rel_a (fuel : Nat) :
    findRepoLoop ["/"] "/" fuel "a" = none := by
  cases fuel with
  | zero => rfl
  | succ n =>
    simp only [findRepoLoop]
    rw [if_neg (by decide), if_neg (by decide)]
    rw [show posixDirname "a" = "" from by decide]
    exact findRepoLoop_empty_stuck n

/-- `'//'` is its own `posixpath.dirname`, so the walk from `'//'` never
finishes when no probe hits a marker. -/
theorem findRepoLoop_doubleslash_stuck (fuel : Nat) :
    findRepoLoop ["/"] "/" fuel "//" = none := by
  induction fuel with
  | zero => rfl
  | succ n ih =>
    simp only [findRepoLoop]
    rw [if_neg (by decide), if_neg (by decide)]
    rw [show posixDirname "//" = "//" from by decide]
    exact ih

/-! ### Claim C9 -/

/-- C9, counterexample: `'//'` is an absolute path (`isabs` is just a
leading-slash test) on which the claimed termination argument fails:
`dirname('//') = '//'` does not strictly shorten, and with no marker in
the tree the loop never finishes for any amount of fuel. -/
theorem c9_counterexample :
    "//".data.head? = some '/' ∧
    posixDirname "//" = "//" ∧
    ¬ (∃ fuel, findRepoLoop ["/"] "/" fuel "//" ≠ none) := by
  refine ⟨by decide, by decide, ?_⟩
  rintro ⟨fuel, hf⟩
  exact hf (findRepoLoop_doubleslash_stuck fuel)

/-- C9 (amended): for every *strictly* absolute input (exactly one
leading slash), `FindRepoDir` terminates — each `dirname` step strictly
shortens the path until it equals `'/'`, so fuel equal to the string
length suffices; and a relative input with no marker ancestor reaches
`''`, which is its own `dirname`, and loops — absoluteness with a single
leading slash is required for termination. -/
theorem c9_termination (fs : Fs) (cwd : String) (fuel : Nat) (p : String)
    (habs : StrictAbs p.data) (hfuel : p.data.length ≤ fuel) :
    findRepoLoop fs cwd fuel p ≠ none ∧
    posixDirname "" = "" ∧
    (∀ n, findRepoLoop ["/"] "/" n "a" = none) := by
  refine ⟨?_, by decide, findRepoLoop_rel_a⟩
  induction fuel generalizing p with
  | zero =>
    obtain ⟨h1, _⟩ := habs
    have hni : p.data = [] := List.length_eq_zero.mp (Nat.le_zero.mp hfuel)
    rw [hni] at h1
    simp at h1
  | succ n ih =>
    simp only [findRepoLoop]
    by_cases hroot : p = "/"
    · rw [if_pos hroot]; simp
    · rw [if_neg hroot]
      by_cases hdir : isdir fs cwd (posixJoin p ".repo") = true
      · rw [if_pos hdir]; simp
      · rw [if_neg hdir]
        have hpd : p.data ≠ ['/'] := by
          intro hpd
          exact hroot (String.ext hpd)
        obtain ⟨habs2, hlt⟩ := dirnameL_descent p.data habs hpd
        refine ih (posixDirname p) habs2 ?_
        have hdd : (posixDirname p).data = dirnameL p.data := rfl
        rw [hdd]
        omega

/-- Witness for `c9_termination` at the strictly absolute `/a/b` with
fuel equal to its length. -/
theorem c9_termination_witness :
    findRepoLoop ["/"] "/" 4 "/a/b" ≠ none ∧
    posixDirname "" = "" ∧
    (∀ n, findRepoLoop ["/"] "/" n "a" = none) :=
  c9_termination ["/"] "/" 4 "/a/b" (by decide) (by decide)

/-- Markerless two-level tree for the C10 witness. -/
def fsC10 : Fs := ["/", "/w", "/w/q"]

/-- Witness for `c10_none_join_failure` at a concrete markerless tree. -/
theorem c10_none_join_failure_witness :
    ReinterpretPathForChroot fsC10 "/" "u" 10 "/w/q" =
      some (.error .typeErrorNoneJoin) ∧
    ReinterpretPathForChroot fsC10 "/" "u" 10 "/w/q" ≠
      some (.error .outsideSrcTree) :=
  c10_none_join_failure fsC10 "/" "u" 10 "/w/q" (by decide)

/-! ### Claim C3 -/

/-- Oracle under which `['false']` exits 1 and anything else exits 0. -/
def spawnC3 : SpawnCall → SpawnBehavior := fun c =>
  if c.cmd = CmdArg.list ["false"] then .ok "" "" 1 else .ok "" "" 0

/-- C3, counterexample: `RunCommand(['false'], error_ok=True)` — child
exits 1 — returns without raising (value `None`) but emits *no* warning:
the nonzero-exit `raise` is guarded by `not error_ok`, so with
`error_ok=True` nothing is raised and the `except` handler that calls
`Warning` is never entered. -/
theorem c3_counterexample :
    spawnC3 ⟨CmdArg.list ["false"], Option.none, false, false, false, Option.none⟩ =
      .ok "" "" 1 ∧
    (RunCommand spawnC3 "main.py" (.list ["false"]) true true Option.none false false false
      Option.none Option.none false).result = .ok PyVal.none ∧
    (RunCommand spawnC3 "main.py" (.list ["false"]) true true Option.none false false false
      Option.none Option.none false).warnings = [] :=
  ⟨rfl, rfl, rfl⟩

/-- C3 (amended): when the child exits nonzero and `error_ok=True` (and
`exit_code` is not requested), `RunCommand` returns without raising and
emits *no* warning — the failure raise is skipped rather than caught, so
a warning appears only for spawn-time exceptions; with `error_ok=False`
the same call raises the generic command-failed exception. -/
theorem c3_suppressed_failure (spawn : SpawnCall → SpawnBehavior) (caller : String)
    (l : List String) (pc rs re : Bool) (em cwd inp : Option String)
    (out err : String) (rc : Int)
    (hspawn : spawn ⟨.list l, cwd, truthyOpt inp, rs, re, inp⟩ = .ok out err rc)
    (hrc : rc ≠ 0) :
    (RunCommand spawn caller (.list l) pc true em false rs re cwd inp false).result
        = .ok (if rs then PyVal.str out else PyVal.none) ∧
    (RunCommand spawn caller (.list l) pc true em false rs re cwd inp false).warnings = [] ∧
    (RunCommand spawn caller (.list l) pc false em false rs re cwd inp false).result
        = .error ("Command \"" ++ reprCmd (.list l) ++ "\" failed.\n"
            ++ pyOr em (pyOr (if re then some err else Option.none)
                (pyOr (if rs then some out else Option.none) ""))) := by
  refine ⟨?_, ?_, ?_⟩ <;>
    simp only [RunCommand, Bool.false_eq_true, if_false, hspawn, hrc, ne_eq,
      not_false_eq_true, and_true, and_false, if_true] <;>
    cases rs <;> simp

/-- Oracle for the `c3_suppressed_failure` witness: everything exits 2
with stderr text `boom`. -/
def spawnC3w : SpawnCall → SpawnBehavior := fun _ => .ok "" "boom" 2

/-- Witness for `c3_suppressed_failure` with stderr captured. -/
theorem c3_suppressed_failure_witness :
    (RunCommand spawnC3w "main.py" (.list ["false"]) true true Option.none false false true
      Option.none Option.none false).result
        = .ok (if false then PyVal.str "" else PyVal.none) ∧
    (RunCommand spawnC3w "main.py" (.list ["false"]) true true Option.none false false true
      Option.none Option.none false).warnings = [] ∧
    (RunCommand spawnC3w "main.py" (.list ["false"]) true false Option.none false false true
      Option.none Option.none false).result
        = .error ("Command \"" ++ reprCmd (.list ["false"]) ++ "\" failed.\n"
            ++ pyOr Option.none (pyOr (if true then some "boom" else Option.none)
                (pyOr (if false then some "" else Option.none) ""))) :=
  c3_suppressed_failure spawnC3w "main.py" ["false"] true false true Option.none
    Option.none Option.none "" "boom" 2 rfl (by decide)

/-! ### Claim C4 -/

/-- Oracle whose child writes `ignored` to stdout and exits 0. -/
def spawnC4 : SpawnCall → SpawnBehavior := fun _ => .ok "ignored" "" 0

/-- C4, counterexample: with stdout not captured, a successful
`RunCommand` returns Python `None` — `communicate()` rebinds `output`
from `''` to `None` on an unpiped stream — not the empty string the
claim says. -/
theorem c4_counterexample :
    spawnC4 ⟨CmdArg.list ["true"], Option.none, false, false, false, Option.none⟩ =
      .ok "ignored" "" 0 ∧
    (RunCommand spawnC4 "main.py" (.list ["true"]) true false Option.none false false false
      Option.none Option.none false).result = .ok PyVal.none ∧
    PyVal.none ≠ PyVal.str "" :=
  ⟨rfl, rfl, by decide⟩

/-- C4 (amended): when the child runs and no exception path is taken,
`RunCommand` returns the captured stdout text if `redirect_stdout` is
set and Python `None` (not `''`) otherwise; the empty string is returned
exactly on a suppressed spawn-time failure, where `output` still holds
its initial `''`. -/
theorem c4_return_value (spawn : SpawnCall → SpawnBehavior) (caller : String)
    (cmd : CmdArg) (pc eok rs re : Bool) (em cwd inp : Option String) :
    (∀ out err rc, spawn ⟨cmd, cwd, truthyOpt inp, rs, re, inp⟩ = .ok out err rc →
      (eok = true ∨ rc = 0) →
      (RunCommand spawn caller cmd pc eok em false rs re cwd inp false).result
        = .ok (if rs then PyVal.str out else PyVal.none)) ∧
    (∀ msg, spawn ⟨cmd, cwd, truthyOpt inp, rs, re, inp⟩ = .exn msg →
      (RunCommand spawn caller cmd pc true em false rs re cwd inp false).result
        = .ok (PyVal.str "")) := by
  constructor
  · intro out err rc hspawn heok
    simp only [RunCommand, Bool.false_eq_true, if_false, hspawn]
    rcases heok with heok | heok
    · subst heok
      cases rs <;> simp
    · subst heok
      cases rs <;> cases eok <;> simp
  · intro msg hspawn
    simp only [RunCommand, Bool.false_eq_true, if_false, hspawn]
    simp

/-- Oracle for the C4 witness: `echo hi` writes `hi\n` and exits 0. -/
def spawnC4w : SpawnCall → SpawnBehavior := fun _ => .ok "hi\n" "" 0

/-- Witness for `c4_return_value`: the spec's own example —
`RunCommand(["echo","hi"], redirect_stdout=True)` returns `"hi\n"`. -/
theorem c4_return_value_witness :
    (RunCommand spawnC4w "main.py" (.list ["echo", "hi"]) true false Option.none false true false
      Option.none Option.none false).result = .ok (if true then PyVal.str "hi\n" else PyVal.none) :=
  (c4_return_value spawnC4w "main.py" (.list ["echo", "hi"]) true false true false
      Option.none Option.none Option.none).1 "hi\n" "" 0 rfl (Or.inr rfl)

/-! ### Claim C5 -/

/-- Oracle for C5: spawning fails (as it would for a whitespace-bearing
program name). -/
def spawnC5 : SpawnCall → SpawnBehavior := fun _ =>
  .exn "OSError: No such file or directory"

/-- C5: the docstring (and the claim) say a string `cmd` is converted to
an argv vector with `split()` before spawning, but the code never calls
`split`: the string reaches `Popen` unchanged, so POSIX treats the whole
string — whitespace included — as the program name. -/
theorem c5_no_split :
    (RunCommand spawnC5 "main.py" (.str "echo hi") true false Option.none false false false
      Option.none Option.none false).spawned =
      some ⟨CmdArg.str "echo hi", Option.none, false, false, false, Option.none⟩ ∧
    CmdArg.str "echo hi" ≠ CmdArg.list ["echo", "hi"] :=
  ⟨rfl, by decide⟩

/-! ### Claim C8 -/

/-- C8: with `exit_code=True`, once the child has run, `RunCommand`
returns its integer exit status — whatever the code and the `error_ok`
flag — without raising and before the nonzero-exit failure check. -/
theorem c8_exit_code (spawn : SpawnCall → SpawnBehavior) (caller : String)
    (cmd : CmdArg) (pc eok rs re : Bool) (em cwd inp : Option String)
    (out err : String) (rc : Int)
    (hspawn : spawn ⟨cmd, cwd, truthyOpt inp, rs, re, inp⟩ = .ok out err rc) :
    (RunCommand spawn caller cmd pc eok em true rs re cwd inp false).result
      = .ok (.int rc) ∧
    (RunCommand spawn caller cmd pc eok em true rs re cwd inp false).warnings = [] := by
  constructor <;> simp [RunCommand, hspawn]

/-- Oracle for the C8 witness: the child exits 23. -/
def spawnC8 : SpawnCall → SpawnBehavior := fun _ => .ok "" "" 23

/-- Witness for `c8_exit_code` on a failing child with `error_ok=False`. -/
theorem c8_exit_code_witness :
    (RunCommand spawnC8 "main.py" (.list ["false"]) true false Option.none true false false
      Option.none Option.none false).result = .ok (.int 23) ∧
    (RunCommand spawnC8 "main.py" (.list ["false"]) true false Option.none true false false
      Option.none Option.none false).warnings = [] :=
  c8_exit_code spawnC8 "main.py" (.list ["false"]) true false false false
    Option.none Option.none Option.none "" "" 23 rfl

/-! ### Claim C6 -/

/-- C6, counterexample: with stdout a tty but stderr not one, `Warning`
writes ANSI escapes to stderr — the stream it writes to is not a tty —
and with stdout not a tty but stderr one, it writes no escapes although
the written-to stream is interactive: enablement follows
`_STDOUT_IS_TTY`, not the diagnostic stream. -/
theorem c6_counterexample :
    (Warning ⟨true, false⟩ "m").stream = .stderr ∧
    (ProcEnv.mk true false).stderrIsTTY = false ∧
    (Warning ⟨true, false⟩ "m").text = "\x1b[1;33m" ++ "\nWARNING: m" ++ "\x1b[0m" ∧
    (ProcEnv.mk false true).stderrIsTTY = true ∧
    (Warning ⟨false, true⟩ "m").text = "\nWARNING: m" := by
  refine ⟨rfl, rfl, ?_, rfl, rfl⟩
  decide

/-- C6 (amended): the `Die`/`Warning`/`Info` lines always go to stderr,
and their coloring is decided once at process start by whether *stdout*
is a tty — it is entirely independent of the tty status of the stderr
stream they are written to. -/
theorem c6_color_from_stdout (so se : Bool) (msg : String) :
    Warning ⟨so, se⟩ msg = Warning ⟨so, true⟩ msg ∧
    Info ⟨so, se⟩ msg = Info ⟨so, true⟩ msg ∧
    Die ⟨so, se⟩ msg = Die ⟨so, true⟩ msg ∧
    (Warning ⟨so, se⟩ msg).stream = .stderr ∧
    (Warning ⟨so, se⟩ msg).text =
      (if so then "\x1b[1;33m" ++ ("\nWARNING: " ++ msg) ++ "\x1b[0m"
       else "\nWARNING: " ++ msg) ∧
    (Info ⟨so, se⟩ msg).text =
      (if so then "\x1b[1;34m" ++ ("\nINFO: " ++ msg) ++ "\x1b[0m"
       else "\nINFO: " ++ msg) ∧
    (Die ⟨so, se⟩ msg).1.text =
      (if so then "\x1b[1;31m" ++ ("\nERROR: " ++ msg) ++ "\x1b[0m"
       else "\nERROR: " ++ msg) ∧
    (Die ⟨so, se⟩ msg).2 = 1 := by
  have h33 : "\x1b[1;" ++ toString (33 : Int) ++ "m" = "\x1b[1;33m" := by decide
  have h34 : "\x1b[1;" ++ toString (34 : Int) ++ "m" = "\x1b[1;34m" := by decide
  have h31 : "\x1b[1;" ++ toString (31 : Int) ++ "m" = "\x1b[1;31m" := by decide
  cases so <;>
    simp [Warning, Info, Die, STDOUT_IS_TTY, Color.Color, Color.COLOR_START,
      Color.RESET, Color.YELLOW, Color.BLUE, Color.RED, Color.BOLD, h33, h34, h31]

/-! ### Claim C7 -/

/-- C7: for each color index `0 ≤ c ≤ 7`, enabled `Color` wraps the text
in `'\033[1;' + str(30 + c) + 'm'` and the reset; `BOLD` uses the fixed
bold start; and a disabled `Color` returns every text unchanged for
every color including `BOLD`. -/
theorem c7_color_wrapping (c : Int) (h0 : 0 ≤ c) (h7 : c ≤ 7) (text : String) :
    (Color.mk true).Color c text
        = "\x1b[1;" ++ toString (30 + c) ++ "m" ++ text ++ "\x1b[0m" ∧
    (Color.mk true).Color Color.BOLD text = "\x1b[1m" ++ text ++ "\x1b[0m" ∧
    (∀ c2 : Int, (Color.mk false).Color c2 text = text) := by
  refine ⟨?_, by simp [Color.Color, Color.BOLD_START, Color.RESET], fun c2 => by simp [Color.Color]⟩
  have hne : c ≠ Color.BOLD := by
    rw [Color.BOLD]
    omega
  simp only [Color.Color, Color.COLOR_START, Color.RESET, hne, if_false, if_neg hne]
  rw [Int.add_comm]
  simp [String.append_assoc]

/-- Witness for `c7_color_wrapping` at `BLUE = 4`. -/
theorem c7_color_wrapping_witness :
    (Color.mk true).Color 4 "hello"
        = "\x1b[1;" ++ toString (30 + (4 : Int)) ++ "m" ++ "hello" ++ "\x1b[0m" ∧
    (Color.mk true).Color Color.BOLD "hello" = "\x1b[1m" ++ "hello" ++ "\x1b[0m" ∧
    (∀ c2 : Int, (Color.mk false).Color c2 "hello" = "hello") :=
  c7_color_wrapping 4 (by decide) (by decide) "hello"

end CrosBuildLib
